import Mathlib

/-!
Shallow embedding of src/preprocess.py (a LeWiDi data-reformatting script)
and proofs about its four record transforms and its batch driver.

Modelling choices:
* A Python record ("LeWiDiStructure" dict) is modelled by a structure whose
  fields are the four keys the transforms actually read; each is an Option,
  none meaning the key is absent from the dict (subscript access on an
  absent key raises KeyError).  The remaining keys of the source TypedDict
  (annotation_task, number_of_annotations, annotators, lang, split,
  other_info) are never read by any code under verification and are
  omitted.
* soft_label is a mapping from label strings to numbers; a Python dict is
  modelled as an association list in insertion (= iteration) order.
* The only operation the script performs on a soft-label number is str();
  a Python float is therefore carried as its decimal string rendering
  (PyNum.float "0.2" stands for the float whose str() is "0.2"), and the
  integer default 0 of dict.get as PyNum.int 0, whose str() is "0".
* A transform either returns a dict or raises KeyError k: PyResult.
-/

/-- A Python number as the script observes it: an int, or a float carried
by its decimal string rendering (the only operation applied is str()). -/
inductive PyNum where
  | int : Int → PyNum
  | float : String → PyNum
deriving DecidableEq

/-- Python str() on a PyNum. -/
def pyStr : PyNum → String
  | PyNum.int n => toString n
  | PyNum.float s => s

/-- Outcome of running a transform on a record: a normal return, or an
uncaught KeyError naming the absent key. -/
inductive PyResult (α : Type) where
  | ok : α → PyResult α
  | keyError : String → PyResult α
deriving DecidableEq

/-- True when the computation returned normally. -/
def PyResult.isOk {α : Type} : PyResult α → Bool
  | PyResult.ok _ => true
  | PyResult.keyError _ => false

/-- True when the computation raised a KeyError. -/
def PyResult.isKeyError {α : Type} : PyResult α → Bool
  | PyResult.ok _ => false
  | PyResult.keyError _ => true

/-- An input record (LeWiDiStructure), restricted to the keys the
transforms read; none models an absent key. -/
structure LeWiDiStructure where
  text : Option String
  hard_label : Option String
  soft_label : Option (List (String × PyNum))
  annotations : Option String
deriving DecidableEq

/-- One context entry of an output record. -/
structure Ctx where
  title : String
  text : String
deriving DecidableEq

/-- An output record: the shape every transform produces. -/
structure Reformatted where
  question : String
  target : String
  answers : List String
  ctxs : List Ctx
deriving DecidableEq

/-- Python str.split with a one-character separator, on the character
list: every occurrence of the separator splits, "" yields [""]. -/
def splitCharList (sep : Char) : List Char → List String
  | [] => [""]
  | c :: cs =>
    let rest := splitCharList sep cs
    if c = sep then "" :: rest
    else
      match rest with
      | [] => [String.mk [c]]
      | hd :: tl => String.mk (c :: hd.data) :: tl

/-- Python str.split(sep) for a one-character sep. -/
def pySplit (s : String) (sep : Char) : List String :=
  splitCharList sep s.data

/-- Embeds from_annotations_to_hard_label (preprocess.py lines 41-57).
The dict literal evaluates text, then hard_label (twice), then
annotations; the first absent key raises. -/
def from_annotations_to_hard_label (original_data : LeWiDiStructure) :
    PyResult Reformatted :=
  match original_data.text, original_data.hard_label, original_data.annotations with
  | none, _, _ => PyResult.keyError "text"
  | some _, none, _ => PyResult.keyError "hard_label"
  | some _, some _, none => PyResult.keyError "annotations"
  | some text, some hard, some anns =>
    PyResult.ok
      { question := text ++ " hate speech or not (0/1)?",
        target := hard,
        answers := [hard],
        ctxs := (pySplit anns ',').map fun a => { title := "", text := a } }

/-- Embeds from_soft_to_hard_label (preprocess.py lines 60-76): target and
answers from hard_label, contexts from the stringified values of
soft_label in iteration order; annotations is never read. -/
def from_soft_to_hard_label (original_data : LeWiDiStructure) :
    PyResult Reformatted :=
  match original_data.text, original_data.hard_label, original_data.soft_label with
  | none, _, _ => PyResult.keyError "text"
  | some _, none, _ => PyResult.keyError "hard_label"
  | some _, some _, none => PyResult.keyError "soft_label"
  | some text, some hard, some sl =>
    PyResult.ok
      { question := text ++ " hate speech or not (0/1)?",
        target := hard,
        answers := [hard],
        ctxs := (sl.map Prod.snd).map fun v => { title := "", text := pyStr v } }

/-- Embeds from_annotations_to_soft_label (preprocess.py lines 80-98):
line 91 reads soft_label first, so an absent soft_label raises before
text or annotations is read; .get("1", 0) defaults to the int 0. -/
def from_annotations_to_soft_label (original_data : LeWiDiStructure) :
    PyResult Reformatted :=
  match original_data.soft_label, original_data.text, original_data.annotations with
  | none, _, _ => PyResult.keyError "soft_label"
  | some _, none, _ => PyResult.keyError "text"
  | some _, some _, none => PyResult.keyError "annotations"
  | some sl, some text, some anns =>
    let soft_label_1_prob := pyStr ((sl.lookup "1").getD (PyNum.int 0))
    PyResult.ok
      { question := text ++ " hate speech or not (0/1)?",
        target := soft_label_1_prob,
        answers := [soft_label_1_prob],
        ctxs := (pySplit anns ',').map fun a => { title := "", text := a } }

/-- Embeds from_annotations_to_soft_labels (preprocess.py lines 101-119):
line 112 reads soft_label first; the target is
str(get("0",0)) + str(get("1",0)) + "/". -/
def from_annotations_to_soft_labels (original_data : LeWiDiStructure) :
    PyResult Reformatted :=
  match original_data.soft_label, original_data.text, original_data.annotations with
  | none, _, _ => PyResult.keyError "soft_label"
  | some _, none, _ => PyResult.keyError "text"
  | some _, some _, none => PyResult.keyError "annotations"
  | some sl, some text, some anns =>
    let soft_label_1_prob :=
      pyStr ((sl.lookup "0").getD (PyNum.int 0)) ++
        pyStr ((sl.lookup "1").getD (PyNum.int 0)) ++ "/"
    PyResult.ok
      { question := text ++ " hate speech or not (0/1)?",
        target := soft_label_1_prob,
        answers := [soft_label_1_prob],
        ctxs := (pySplit anns ',').map fun a => { title := "", text := a } }

/-- Embeds process_data (preprocess.py lines 122-134): a Python dict is an
association list in iteration order; the comprehension drops the key. -/
def process_data {α β : Type} (function : α → β) (data : List (String × α)) :
    List β :=
  data.map fun entry => function entry.2

/-- Embeds the output-file naming of main (preprocess.py line 164):
the f-string stem_functionname.json. -/
def output_file_name (stem : String) (functionName : String) : String :=
  stem ++ "_" ++ functionName ++ ".json"

/-- The __name__ strings of the four transforms, in the order of the
functions list of main (preprocess.py lines 150-155). -/
def functionNames : List String :=
  ["from_annotations_to_hard_label", "from_soft_to_hard_label",
   "from_annotations_to_soft_label", "from_annotations_to_soft_labels"]

/-- The record of the end-to-end scenario: text "abc", hard_label "1",
soft_label with "0" at 0.2 and "1" at 0.8, annotations "0,1,1". -/
def exampleRecord : LeWiDiStructure :=
  { text := some "abc", hard_label := some "1",
    soft_label := some [("0", PyNum.float "0.2"), ("1", PyNum.float "0.8")],
    annotations := some "0,1,1" }

/-- Like exampleRecord but soft_label carries only the key "0" at 1.0. -/
def exampleRecordOnlyZero : LeWiDiStructure :=
  { text := some "abc", hard_label := some "1",
    soft_label := some [("0", PyNum.float "1.0")],
    annotations := some "0,1,1" }

/-- Like exampleRecord but without the annotations key. -/
def exampleRecordNoAnns : LeWiDiStructure :=
  { text := some "abc", hard_label := some "1",
    soft_label := some [("0", PyNum.float "0.2"), ("1", PyNum.float "0.8")],
    annotations := none }

/-- Like exampleRecord but without the hard_label key. -/
def exampleRecordNoHard : LeWiDiStructure :=
  { text := some "abc", hard_label := none,
    soft_label := some [("0", PyNum.float "0.2"), ("1", PyNum.float "0.8")],
    annotations := some "0,1,1" }

/-- C1: on any record holding text, hard_label and annotations,
from_annotations_to_hard_label returns target = hard_label, answers =
[hard_label], and one context per comma-split segment of annotations in
order, each wrapped with an empty title; in particular the end-to-end
scenario record yields exactly the output the spec displays. -/
theorem from_annotations_to_hard_label_spec (t h a : String)
    (rs : Option (List (String × PyNum))) :
    from_annotations_to_hard_label ⟨some t, some h, rs, some a⟩ =
      PyResult.ok { question := t ++ " hate speech or not (0/1)?", target := h,
                    answers := [h],
                    ctxs := (pySplit a ',').map fun seg => { title := "", text := seg } } ∧
    from_annotations_to_hard_label exampleRecord =
      PyResult.ok { question := "abc hate speech or not (0/1)?", target := "1",
                    answers := ["1"],
                    ctxs := [{ title := "", text := "0" }, { title := "", text := "1" },
                             { title := "", text := "1" }] } :=
  ⟨rfl, by decide⟩

/-- C3: on any record holding text, soft_label and annotations,
from_annotations_to_soft_labels returns target =
str(soft_label.get("0",0)) + str(soft_label.get("1",0)) + "/", the absent
keys defaulting to the int 0 whose str is "0"; on the scenario record the
target is "0.20.8/". -/
theorem from_annotations_to_soft_labels_spec (t a : String)
    (sl : List (String × PyNum)) (rh : Option String) :
    (∃ out, from_annotations_to_soft_labels ⟨some t, rh, some sl, some a⟩ =
        PyResult.ok out ∧
      out.target =
        pyStr ((sl.lookup "0").getD (PyNum.int 0)) ++
          pyStr ((sl.lookup "1").getD (PyNum.int 0)) ++ "/") ∧
    ∃ outEx, from_annotations_to_soft_labels exampleRecord = PyResult.ok outEx ∧
      outEx.target = "0.20.8/" := by
  refine ⟨⟨_, rfl, rfl⟩, ⟨_, rfl, ?_⟩⟩
  decide

/-- C4: on any record holding text, soft_label and annotations,
from_annotations_to_soft_label returns target = str(soft_label.get("1",0));
when the key "1" is absent the target is exactly "0", as on a record whose
soft_label is just 1.0 at "0". -/
theorem from_annotations_to_soft_label_spec (t a : String)
    (sl : List (String × PyNum)) (rh : Option String) :
    (∃ out, from_annotations_to_soft_label ⟨some t, rh, some sl, some a⟩ =
        PyResult.ok out ∧
      out.target = pyStr ((sl.lookup "1").getD (PyNum.int 0))) ∧
    (sl.lookup "1" = none →
      ∃ out, from_annotations_to_soft_label ⟨some t, rh, some sl, some a⟩ =
          PyResult.ok out ∧
        out.target = "0") ∧
    ∃ outEx, from_annotations_to_soft_label exampleRecordOnlyZero = PyResult.ok outEx ∧
      outEx.target = "0" := by
  refine ⟨⟨_, rfl, rfl⟩, fun hnone => ⟨_, rfl, ?_⟩, ⟨_, rfl, ?_⟩⟩
  · show pyStr ((sl.lookup "1").getD (PyNum.int 0)) = "0"
    rw [hnone]
    decide
  · decide

/-- C6: on any record holding text, hard_label and soft_label,
from_soft_to_hard_label returns target = hard_label and one context per
soft_label entry, in iteration order, each value stringified under an
empty title; on the scenario record the contexts are "0.2" and "0.8". -/
theorem from_soft_to_hard_label_spec (t h : String)
    (sl : List (String × PyNum)) (ra : Option String) :
    (∃ out, from_soft_to_hard_label ⟨some t, some h, some sl, ra⟩ =
        PyResult.ok out ∧
      out.target = h ∧
      out.ctxs = sl.map (fun p => { title := "", text := pyStr p.2 }) ∧
      out.ctxs.length = sl.length) ∧
    ∃ outEx, from_soft_to_hard_label exampleRecord = PyResult.ok outEx ∧
      outEx.target = "1" ∧
      outEx.ctxs = [{ title := "", text := "0.2" }, { title := "", text := "0.8" }] := by
  refine ⟨⟨_, rfl, rfl, ?_, ?_⟩, ⟨_, rfl, by decide, by decide⟩⟩
  · simp [List.map_map]
  · simp

/-- C5: on any record holding text (and whatever else), whenever any of
the four transforms returns normally, the question of its output is the
text followed by the literal suffix " hate speech or not (0/1)?". -/
theorem question_field_spec (t : String) (rh : Option String)
    (rs : Option (List (String × PyNum))) (ra : Option String) :
    (∀ out, from_annotations_to_hard_label ⟨some t, rh, rs, ra⟩ = PyResult.ok out →
      out.question = t ++ " hate speech or not (0/1)?") ∧
    (∀ out, from_soft_to_hard_label ⟨some t, rh, rs, ra⟩ = PyResult.ok out →
      out.question = t ++ " hate speech or not (0/1)?") ∧
    (∀ out, from_annotations_to_soft_label ⟨some t, rh, rs, ra⟩ = PyResult.ok out →
      out.question = t ++ " hate speech or not (0/1)?") ∧
    (∀ out, from_annotations_to_soft_labels ⟨some t, rh, rs, ra⟩ = PyResult.ok out →
      out.question = t ++ " hate speech or not (0/1)?") := by
  refine ⟨?_, ?_, ?_, ?_⟩ <;>
    (intro out hout
     cases rh <;> cases rs <;> cases ra <;>
       first
         | exact PyResult.noConfusion hout
         | (injection hout with h2; exact congrArg Reformatted.question h2.symm))

/-- C10: whenever any of the four transforms returns normally, the
answers of its output are exactly the one-element list holding its
target. -/
theorem answers_singleton_spec (r : LeWiDiStructure) (out : Reformatted) :
    (from_annotations_to_hard_label r = PyResult.ok out → out.answers = [out.target]) ∧
    (from_soft_to_hard_label r = PyResult.ok out → out.answers = [out.target]) ∧
    (from_annotations_to_soft_label r = PyResult.ok out → out.answers = [out.target]) ∧
    (from_annotations_to_soft_labels r = PyResult.ok out → out.answers = [out.target]) := by
  obtain ⟨rt, rh, rs, ra⟩ := r
  refine ⟨?_, ?_, ?_, ?_⟩ <;>
    (intro hout
     cases rt <;> cases rh <;> cases rs <;> cases ra <;>
       first
         | exact PyResult.noConfusion hout
         | (injection hout with h2; rw [← h2]))

/-- C7: process_data applied to any function and any record mapping is
the list of images of the records in iteration order: the keys are
dropped and the length is the number of records. -/
theorem process_data_spec {α β : Type} (function : α → β)
    (data : List (String × α)) :
    process_data function data = (data.map Prod.snd).map function ∧
    (process_data function data).length = data.length := by
  constructor
  · simp [process_data, List.map_map, Function.comp]
  · simp [process_data]

/-- Appending the same string on the left of both sides of a string
equation cancels. -/
theorem string_append_cancel_left (s a b : String) (h : s ++ a = s ++ b) :
    a = b := by
  obtain ⟨ds⟩ := s
  obtain ⟨da⟩ := a
  obtain ⟨db⟩ := b
  have hd : ds ++ da = ds ++ db := congrArg String.data h
  exact congrArg String.mk (List.append_cancel_left hd)

/-- Appending the same string on the right of both sides of a string
equation cancels. -/
theorem string_append_cancel_right (s a b : String) (h : a ++ s = b ++ s) :
    a = b := by
  obtain ⟨ds⟩ := s
  obtain ⟨da⟩ := a
  obtain ⟨db⟩ := b
  have hd : da ++ ds = db ++ ds := congrArg String.data h
  exact congrArg String.mk (List.append_cancel_right hd)

/-- C8: the four transform names are pairwise distinct, and for every
input stem the file-name builder is injective, so the four output file
names stem_name.json are pairwise distinct as well. -/
theorem output_file_names_distinct :
    functionNames.Nodup ∧
    ∀ stem : String, Function.Injective (output_file_name stem) ∧
      (functionNames.map (output_file_name stem)).Nodup := by
  have hnd : functionNames.Nodup := by decide
  refine ⟨hnd, fun stem => ?_⟩
  have hinj : Function.Injective (output_file_name stem) := by
    intro x y hxy
    have h1 : stem ++ "_" ++ x = stem ++ "_" ++ y :=
      string_append_cancel_right ".json" _ _ hxy
    exact string_append_cancel_left (stem ++ "_") x y h1
  exact ⟨hinj, hnd.map hinj⟩

/-- A subscript read original_data[key] with the record state threaded
explicitly: it yields the value and the record as the read leaves it. -/
def readField {α : Type} (r : LeWiDiStructure) (v : Option α) (key : String) :
    PyResult (α × LeWiDiStructure) :=
  match v with
  | some x => PyResult.ok (x, r)
  | none => PyResult.keyError key

/-- from_annotations_to_hard_label with the record state threaded through
its four subscript reads (text, hard_label twice, annotations), returning
the record as the call leaves it. -/
def from_annotations_to_hard_labelSt (od0 : LeWiDiStructure) :
    PyResult (Reformatted × LeWiDiStructure) :=
  match readField od0 od0.text "text" with
  | PyResult.keyError k => PyResult.keyError k
  | PyResult.ok (text, od1) =>
    match readField od1 od1.hard_label "hard_label" with
    | PyResult.keyError k => PyResult.keyError k
    | PyResult.ok (hard1, od2) =>
      match readField od2 od2.hard_label "hard_label" with
      | PyResult.keyError k => PyResult.keyError k
      | PyResult.ok (hard2, od3) =>
        match readField od3 od3.annotations "annotations" with
        | PyResult.keyError k => PyResult.keyError k
        | PyResult.ok (anns, od4) =>
          PyResult.ok
            ({ question := text ++ " hate speech or not (0/1)?",
               target := hard1,
               answers := [hard2],
               ctxs := (pySplit anns ',').map fun a => { title := "", text := a } },
             od4)

/-- from_soft_to_hard_label with the record state threaded through its
four subscript reads (text, hard_label twice, soft_label). -/
def from_soft_to_hard_labelSt (od0 : LeWiDiStructure) :
    PyResult (Reformatted × LeWiDiStructure) :=
  match readField od0 od0.text "text" with
  | PyResult.keyError k => PyResult.keyError k
  | PyResult.ok (text, od1) =>
    match readField od1 od1.hard_label "hard_label" with
    | PyResult.keyError k => PyResult.keyError k
    | PyResult.ok (hard1, od2) =>
      match readField od2 od2.hard_label "hard_label" with
      | PyResult.keyError k => PyResult.keyError k
      | PyResult.ok (hard2, od3) =>
        match readField od3 od3.soft_label "soft_label" with
        | PyResult.keyError k => PyResult.keyError k
        | PyResult.ok (sl, od4) =>
          PyResult.ok
            ({ question := text ++ " hate speech or not (0/1)?",
               target := hard1,
               answers := [hard2],
               ctxs := (sl.map Prod.snd).map fun v => { title := "", text := pyStr v } },
             od4)

/-- from_annotations_to_soft_label with the record state threaded through
its three subscript reads (soft_label first, then text, annotations). -/
def from_annotations_to_soft_labelSt (od0 : LeWiDiStructure) :
    PyResult (Reformatted × LeWiDiStructure) :=
  match readField od0 od0.soft_label "soft_label" with
  | PyResult.keyError k => PyResult.keyError k
  | PyResult.ok (sl, od1) =>
    let soft_label_1_prob := pyStr ((sl.lookup "1").getD (PyNum.int 0))
    match readField od1 od1.text "text" with
    | PyResult.keyError k => PyResult.keyError k
    | PyResult.ok (text, od2) =>
      match readField od2 od2.annotations "annotations" with
      | PyResult.keyError k => PyResult.keyError k
      | PyResult.ok (anns, od3) =>
        PyResult.ok
          ({ question := text ++ " hate speech or not (0/1)?",
             target := soft_label_1_prob,
             answers := [soft_label_1_prob],
             ctxs := (pySplit anns ',').map fun a => { title := "", text := a } },
           od3)

/-- from_annotations_to_soft_labels with the record state threaded
through its four subscript reads (soft_label twice, text, annotations). -/
def from_annotations_to_soft_labelsSt (od0 : LeWiDiStructure) :
    PyResult (Reformatted × LeWiDiStructure) :=
  match readField od0 od0.soft_label "soft_label" with
  | PyResult.keyError k => PyResult.keyError k
  | PyResult.ok (sl0, od1) =>
    match readField od1 od1.soft_label "soft_label" with
    | PyResult.keyError k => PyResult.keyError k
    | PyResult.ok (sl1, od2) =>
      let soft_label_1_prob :=
        pyStr ((sl0.lookup "0").getD (PyNum.int 0)) ++
          pyStr ((sl1.lookup "1").getD (PyNum.int 0)) ++ "/"
      match readField od2 od2.text "text" with
      | PyResult.keyError k => PyResult.keyError k
      | PyResult.ok (text, od3) =>
        match readField od3 od3.annotations "annotations" with
        | PyResult.keyError k => PyResult.keyError k
        | PyResult.ok (anns, od4) =>
          PyResult.ok
            ({ question := text ++ " hate speech or not (0/1)?",
               target := soft_label_1_prob,
               answers := [soft_label_1_prob],
               ctxs := (pySplit anns ',').map fun a => { title := "", text := a } },
           od4)

/-- C9: each transform, run with the record state threaded through every
one of its reads, leaves the record (soft_label mapping and annotations
string included) exactly as it was, and its output agrees with the plain
transform: the transforms are pure in their argument. -/
theorem transforms_leave_input_unchanged (r r2 : LeWiDiStructure)
    (out : Reformatted) :
    (from_annotations_to_hard_labelSt r = PyResult.ok (out, r2) →
      r2 = r ∧ from_annotations_to_hard_label r = PyResult.ok out) ∧
    (from_soft_to_hard_labelSt r = PyResult.ok (out, r2) →
      r2 = r ∧ from_soft_to_hard_label r = PyResult.ok out) ∧
    (from_annotations_to_soft_labelSt r = PyResult.ok (out, r2) →
      r2 = r ∧ from_annotations_to_soft_label r = PyResult.ok out) ∧
    (from_annotations_to_soft_labelsSt r = PyResult.ok (out, r2) →
      r2 = r ∧ from_annotations_to_soft_labels r = PyResult.ok out) := by
  obtain ⟨rt, rh, rs, ra⟩ := r
  refine ⟨?_, ?_, ?_, ?_⟩ <;>
    (intro hout
     cases rt <;> cases rh <;> cases rs <;> cases ra <;>
       first
         | exact PyResult.noConfusion hout
         | (injection hout with h2; injection h2 with ho hr;
            exact ⟨hr.symm, congrArg PyResult.ok ho⟩))

/-- C2 counterexample: the claim that every one of the four transforms
fails when text, hard_label or annotations is absent is false on the
code: from_soft_to_hard_label never reads annotations, so it returns
normally on a record lacking them, and the two .get-based transforms
never read hard_label, so they return normally on a record lacking it. -/
theorem missing_field_claim_counterexample :
    exampleRecordNoAnns.annotations = none ∧
    (from_soft_to_hard_label exampleRecordNoAnns).isOk = true ∧
    exampleRecordNoHard.hard_label = none ∧
    (from_annotations_to_soft_label exampleRecordNoHard).isOk = true ∧
    (from_annotations_to_soft_labels exampleRecordNoHard).isOk = true := by
  decide

/-- C2 as amended: each transform raises KeyError exactly on the absence
of a field it actually reads — all four need text; hard_label is needed
only by from_annotations_to_hard_label and from_soft_to_hard_label;
annotations only by from_annotations_to_hard_label and the two .get-based
transforms; soft_label only by the three soft-label-based transforms —
and a transform whose own required fields are present returns normally,
whatever keys its soft_label mapping holds ("0"/"1" may be absent) and
whether or not the fields it never reads are present. -/
theorem missing_field_behaviour (r : LeWiDiStructure) :
    (r.text = none →
      (from_annotations_to_hard_label r).isKeyError = true ∧
      (from_soft_to_hard_label r).isKeyError = true ∧
      (from_annotations_to_soft_label r).isKeyError = true ∧
      (from_annotations_to_soft_labels r).isKeyError = true) ∧
    (r.hard_label = none →
      (from_annotations_to_hard_label r).isKeyError = true ∧
      (from_soft_to_hard_label r).isKeyError = true) ∧
    (r.annotations = none →
      (from_annotations_to_hard_label r).isKeyError = true ∧
      (from_annotations_to_soft_label r).isKeyError = true ∧
      (from_annotations_to_soft_labels r).isKeyError = true) ∧
    (r.soft_label = none →
      (from_soft_to_hard_label r).isKeyError = true ∧
      (from_annotations_to_soft_label r).isKeyError = true ∧
      (from_annotations_to_soft_labels r).isKeyError = true) ∧
    (r.text ≠ none → r.hard_label ≠ none → r.soft_label ≠ none →
      (from_soft_to_hard_label r).isOk = true) ∧
    (r.text ≠ none → r.soft_label ≠ none → r.annotations ≠ none →
      (from_annotations_to_soft_label r).isOk = true ∧
      (from_annotations_to_soft_labels r).isOk = true) := by
  obtain ⟨rt, rh, rs, ra⟩ := r
  cases rt <;> cases rh <;> cases rs <;> cases ra <;>
    simp [from_annotations_to_hard_label, from_soft_to_hard_label,
      from_annotations_to_soft_label, from_annotations_to_soft_labels,
      PyResult.isKeyError, PyResult.isOk]
